import Mathlib

/-!
Verification of the receipt-processing service (Go) against its
natural-language specification.

Modelling conventions:
* Go `float64` / `float32` fields are modelled as `ℚ`: every claim under
  scrutiny only uses comparisons, addition and subtraction, which the spec
  states in exact real-number terms.
* Go `[]byte` is modelled as `List Nat` (each entry a byte value).
* Go strings are modelled as Lean `String`, or `List Char` where the code
  iterates over raw characters.
* `time.Time` is modelled abstractly by the two operations the code uses:
  the zero-value test `IsZero` and formatting to `YYYY-MM-DD`.
* Fallible Go functions returning `error` become `Except`/`Option` values;
  error messages that Go builds with numeric `fmt` formatting are kept as
  fixed strings (the claims only inspect the error field / kind).
-/

/-- Abstraction of Go `time.Time` restricted to the operations the
receipt code performs on it: `IsZero` and `Format "2006-01-02"`. -/
structure GoTime where
  IsZero : Bool
  FormatYMD : String
deriving DecidableEq, Repr

namespace Openai

/-- Go struct `ReceiptItem` from src/shared/openai/models.go. -/
structure ReceiptItem where
  Name : String
  Quantity : ℚ
  UnitPrice : ℚ
  TotalPrice : ℚ
  Category : String
  SKU : String
  Discount : ℚ
  TaxAmount : ℚ
  Description : String
deriving DecidableEq, Repr

/-- Go struct `ReceiptData` from src/shared/openai/models.go. -/
structure ReceiptData where
  StoreName : String
  ReceiptDate : GoTime
  TotalAmount : ℚ
  Currency : String
  Items : List ReceiptItem
  StoreAddress : String
  StorePhone : String
  TaxAmount : ℚ
  SubtotalAmount : ℚ
  DiscountAmount : ℚ
  TipAmount : ℚ
  PaymentMethod : String
  CardLastDigits : String
  ReceiptNumber : String
  TransactionID : String
  CashierName : String
  RegisterNumber : String
  ExpenseCategory : String
  Notes : String
  CustomFields : List (String × String)
  RawText : String
  ConfidenceLevel : ℚ
deriving DecidableEq, Repr

/-- A `ReceiptItem` with all fields at their Go zero values. -/
def emptyItem : ReceiptItem :=
  { Name := "", Quantity := 0, UnitPrice := 0, TotalPrice := 0,
    Category := "", SKU := "", Discount := 0, TaxAmount := 0,
    Description := "" }

/-- A `ReceiptData` with all fields at their Go zero values. -/
def emptyReceiptData : ReceiptData :=
  { StoreName := "", ReceiptDate := { IsZero := true, FormatYMD := "" },
    TotalAmount := 0, Currency := "", Items := [],
    StoreAddress := "", StorePhone := "", TaxAmount := 0,
    SubtotalAmount := 0, DiscountAmount := 0, TipAmount := 0,
    PaymentMethod := "", CardLastDigits := "", ReceiptNumber := "",
    TransactionID := "", CashierName := "", RegisterNumber := "",
    ExpenseCategory := "", Notes := "", CustomFields := [],
    RawText := "", ConfidenceLevel := 0 }

/-- Method `(*ReceiptData).Validate` from src/shared/openai/integration.go
(lines 121-135): returns the first failing requirement, or `none`. -/
def Validate (r : ReceiptData) : Option String :=
  if r.StoreName = "" then some "store name is required"
  else if r.TotalAmount ≤ 0 then some "total amount must be positive"
  else if r.Currency = "" then some "currency is required"
  else if r.ReceiptDate.IsZero then some "receipt date is required"
  else none

/-- Method `(*ReceiptData).GetTotalWithoutTax` from
src/shared/openai/integration.go (lines 138-147). -/
def GetTotalWithoutTax (r : ReceiptData) : ℚ :=
  if r.SubtotalAmount > 0 then r.SubtotalAmount
  else if r.TaxAmount > 0 then r.TotalAmount - r.TaxAmount
  else r.TotalAmount

end Openai

namespace Openai

/-- Go error struct `ImageValidationError` from
src/shared/openai/validation.go (message strings that Go builds with
numeric formatting are kept as fixed strings). -/
structure ImageValidationError where
  Field : String
  Message : String
deriving DecidableEq, Repr

/-- Constant `MaxImageSizeBytes = 50 * 1024 * 1024` from
src/shared/openai/validation.go. -/
def MaxImageSizeBytes : Nat := 50 * 1024 * 1024

/-- Function `ValidateImageSize` from src/shared/openai/validation.go
(lines 27-47). -/
def ValidateImageSize (imageData : List Nat) : Except ImageValidationError Unit :=
  if imageData.length = 0 then
    .error { Field := "image_data", Message := "image data is empty" }
  else if imageData.length > MaxImageSizeBytes then
    .error { Field := "image_size", Message := "image size exceeds OpenAI limit" }
  else .ok ()

/-- The PNG magic-byte test of `ValidateImageFormat`:
`89 50 4E 47` at offsets 0-3. -/
def isPNG (d : List Nat) : Bool :=
  d.getD 0 0 == 0x89 && d.getD 1 0 == 0x50 && d.getD 2 0 == 0x4E && d.getD 3 0 == 0x47

/-- The JPEG magic-byte test of `ValidateImageFormat`: `FF D8 FF` at offsets 0-2. -/
def isJPEG (d : List Nat) : Bool :=
  d.getD 0 0 == 0xFF && d.getD 1 0 == 0xD8 && d.getD 2 0 == 0xFF

/-- The GIF magic-byte test of `ValidateImageFormat`: `47 49 46` at offsets 0-2. -/
def isGIF (d : List Nat) : Bool :=
  d.getD 0 0 == 0x47 && d.getD 1 0 == 0x49 && d.getD 2 0 == 0x46

/-- The WEBP magic-byte test of `ValidateImageFormat`: at least 12 bytes,
`RIFF` at offsets 0-3 and `WEBP` at offsets 8-11. -/
def isWEBP (d : List Nat) : Bool :=
  decide (12 ≤ d.length) &&
  d.getD 0 0 == 0x52 && d.getD 1 0 == 0x49 && d.getD 2 0 == 0x46 && d.getD 3 0 == 0x46 &&
  d.getD 8 0 == 0x57 && d.getD 9 0 == 0x45 && d.getD 10 0 == 0x42 && d.getD 11 0 == 0x50

/-- Function `ValidateImageFormat` from src/shared/openai/validation.go
(lines 101-141). -/
def ValidateImageFormat (d : List Nat) : Except ImageValidationError Unit :=
  if d.length < 4 then
    .error { Field := "image_format",
             Message := "image data too short to determine format" }
  else if !(isPNG d) && !(isJPEG d) && !(isGIF d) && !(isWEBP d) then
    .error { Field := "image_format",
             Message := "unsupported image format. OpenAI supports: PNG, JPEG, WEBP, non-animated GIF" }
  else .ok ()

/-- Function `ValidateImageForOpenAI` from src/shared/openai/validation.go:
size check, then format check. -/
def ValidateImageForOpenAI (d : List Nat) : Except ImageValidationError Unit :=
  match ValidateImageSize d with
  | .error e => .error e
  | .ok _ => ValidateImageFormat d

/-- Go struct `ServiceConfig` from src/shared/openai (service
configuration file). `Temperature` is a Go `float32`, modelled as `ℚ`. -/
structure ServiceConfig where
  APIKey : String
  DefaultCurrency : String
  DefaultLanguage : String
  DefaultTimezone : String
  VisionModel : String
  CompletionModel : String
  MaxTokens : Int
  Temperature : ℚ
deriving DecidableEq, Repr

/-- Go struct `Service`: the stored configuration plus the resolved API
key kept in its own field. -/
structure Service where
  config : ServiceConfig
  apiKey : String
deriving DecidableEq, Repr

/-- Method `(*Service).UpdateConfig` from src/shared/openai: each field of
the update overwrites the stored one only under the guard the code
tests for that field (`!= ""` for strings, `> 0` for `MaxTokens`,
`>= 0` for `Temperature`); `APIKey` updates the service's key field. -/
def UpdateConfig (s : Service) (config : ServiceConfig) : Service :=
  { apiKey := if config.APIKey ≠ "" then config.APIKey else s.apiKey,
    config :=
      { APIKey := s.config.APIKey,
        VisionModel := if config.VisionModel ≠ "" then config.VisionModel else s.config.VisionModel,
        CompletionModel := if config.CompletionModel ≠ "" then config.CompletionModel else s.config.CompletionModel,
        MaxTokens := if config.MaxTokens > 0 then config.MaxTokens else s.config.MaxTokens,
        Temperature := if config.Temperature ≥ 0 then config.Temperature else s.config.Temperature,
        DefaultCurrency := if config.DefaultCurrency ≠ "" then config.DefaultCurrency else s.config.DefaultCurrency,
        DefaultLanguage := if config.DefaultLanguage ≠ "" then config.DefaultLanguage else s.config.DefaultLanguage,
        DefaultTimezone := if config.DefaultTimezone ≠ "" then config.DefaultTimezone else s.config.DefaultTimezone } }

/-- A `ServiceConfig` with every field at its Go zero value. -/
def zeroConfig : ServiceConfig :=
  { APIKey := "", DefaultCurrency := "", DefaultLanguage := "",
    DefaultTimezone := "", VisionModel := "", CompletionModel := "",
    MaxTokens := 0, Temperature := 0 }

end Openai

/-- The 64-character standard base64 alphabet, in encoding order. -/
def b64Alphabet : List Char :=
  "ABCDEFGHIJKLMNOPQRSTUVWXYZabcdefghijklmnopqrstuvwxyz0123456789+/".toList

/-- The character the standard base64 encoding assigns to a 6-bit value. -/
def base64Char (i : Nat) : Char := b64Alphabet.getD i 'A'

/-- Standard base64 encoding of a byte sequence — the library function
`base64.StdEncoding.EncodeToString` the Go code relies on: each group of
three bytes becomes four alphabet characters; a trailing group of one or
two bytes is completed with `=` padding. -/
def encodeBase64 : List Nat → List Char
  | b1 :: b2 :: b3 :: rest =>
      base64Char (b1 / 4) :: base64Char (b1 % 4 * 16 + b2 / 16) ::
      base64Char (b2 % 16 * 4 + b3 / 64) :: base64Char (b3 % 64) ::
      encodeBase64 rest
  | [b1, b2] =>
      [base64Char (b1 / 4), base64Char (b1 % 4 * 16 + b2 / 16),
       base64Char (b2 % 16 * 4), '=']
  | [b1] =>
      [base64Char (b1 / 4), base64Char (b1 % 4 * 16), '=', '=']
  | [] => []

namespace Openai

/-- The `base64Len` computation of `ValidateImageSizeFromBase64`: when the
string is longer than five characters and starts with `data:`, the
length of what follows the first comma (unchanged when no comma exists);
otherwise the full length. Go iterates byte positions; for this model's
character positions the two coincide on the ASCII strings involved. -/
def dataUriPayloadLen (s : List Char) : Nat :=
  if 5 < s.length ∧ s.take 5 = "data:".toList then
    match s.findIdx? (fun c => c = ',') with
    | some i => s.length - i - 1
    | none => s.length
  else s.length

/-- The padding count of `ValidateImageSizeFromBase64`: trailing `=`
characters of the full string, each test guarded by the payload being
non-empty (resp. longer than one character), as in the Go code. -/
def base64PaddingCount (s : List Char) : Nat :=
  if 0 < dataUriPayloadLen s then
    (if s.getD (s.length - 1) ' ' = '=' then 1 else 0) +
    (if 1 < dataUriPayloadLen s ∧ s.getD (s.length - 2) ' ' = '=' then 1 else 0)
  else 0

/-- The decoded-size estimate of `ValidateImageSizeFromBase64`:
`(base64Len * 3 / 4) - padding`, computed in Go `int` arithmetic (hence
in `ℤ`, as the subtraction can go negative). -/
def base64DecodedSizeEstimate (s : List Char) : Int :=
  ((dataUriPayloadLen s * 3 / 4 : Nat) : Int) - (base64PaddingCount s : Int)

/-- Function `ValidateImageSizeFromBase64` from
src/shared/openai/validation.go (lines 50-98). -/
def ValidateImageSizeFromBase64 (base64Data : List Char) : Except ImageValidationError Unit :=
  if base64Data = [] then
    .error { Field := "image_data", Message := "base64 image data is empty" }
  else if base64DecodedSizeEstimate base64Data > (MaxImageSizeBytes : Int) then
    .error { Field := "image_size", Message := "image size exceeds OpenAI limit" }
  else .ok ()

end Openai

/-- The decode map of Go's `base64.StdEncoding`: the 6-bit value of an
alphabet character, `none` for every other character (`=` included). -/
def b64Index (c : Char) : Option Nat := b64Alphabet.findIdx? (fun a => a == c)

/-- Quantum decoding of Go's `base64.StdEncoding` on input already freed
of carriage returns and newlines: four characters at a time; `=` padding
is accepted only in the last quantum, in its last one or two positions,
with nothing after it; a leftover of one to three characters, a non-table
character, or misplaced padding is an error. -/
def decodeB64Clean : List Char → Option (List Nat)
  | [] => some []
  | c1 :: c2 :: c3 :: c4 :: rest =>
    (match b64Index c1, b64Index c2 with
     | some v1, some v2 =>
       (match b64Index c3 with
        | some v3 =>
          (match b64Index c4 with
           | some v4 =>
             (decodeB64Clean rest).map
               (fun bs => (v1 * 4 + v2 / 16) :: (v2 % 16 * 16 + v3 / 4) ::
                 (v3 % 4 * 64 + v4) :: bs)
           | none =>
             if c4 = '=' ∧ rest = [] then
               some [v1 * 4 + v2 / 16, v2 % 16 * 16 + v3 / 4]
             else none)
        | none =>
          if c3 = '=' ∧ c4 = '=' ∧ rest = [] then
            some [v1 * 4 + v2 / 16]
          else none)
     | _, _ => none)
  | _ => none

/-- Go's `base64.StdEncoding.DecodeString`: the decoder skips `\r` and
`\n` wherever they occur (both inside quanta and around padding), so it
equals quantum decoding of the input with those characters removed. -/
def goDecodeBase64 (s : List Char) : Option (List Nat) :=
  decodeB64Clean (s.filter (fun c => c != '\n' && c != '\r'))

namespace Openai

/-- Function `detectImageMimeType` from src/unnamed/part_003
(lines 340-371): jpeg default for short or undecodable input, otherwise
a switch over the magic bytes of the decoded 16-character head. -/
def detectImageMimeType (base64Data : List Char) : String :=
  if base64Data.length < 20 then "image/jpeg"
  else
    match goDecodeBase64 (base64Data.take (min base64Data.length 16)) with
    | none => "image/jpeg"
    | some decoded =>
      if decoded.length < 4 then "image/jpeg"
      else if decoded.getD 0 0 = 0x89 ∧ decoded.getD 1 0 = 0x50 ∧
          decoded.getD 2 0 = 0x4E ∧ decoded.getD 3 0 = 0x47 then "image/png"
      else if decoded.getD 0 0 = 0xFF ∧ decoded.getD 1 0 = 0xD8 ∧
          decoded.getD 2 0 = 0xFF then "image/jpeg"
      else if decoded.getD 0 0 = 0x47 ∧ decoded.getD 1 0 = 0x49 ∧
          decoded.getD 2 0 = 0x46 then "image/gif"
      else if decoded.getD 0 0 = 0x52 ∧ decoded.getD 1 0 = 0x49 ∧
          decoded.getD 2 0 = 0x46 ∧ decoded.getD 3 0 = 0x46 then
        (if 12 ≤ decoded.length ∧ decoded.getD 8 0 = 0x57 ∧ decoded.getD 9 0 = 0x45 ∧
            decoded.getD 10 0 = 0x42 ∧ decoded.getD 11 0 = 0x50 then "image/webp"
         else "image/jpeg")
      else if decoded.getD 0 0 = 0x42 ∧ decoded.getD 1 0 = 0x4D then "image/bmp"
      else "image/jpeg"

/-- Go struct `ReceiptExtractionRequest` from src/shared/openai/models.go. -/
structure ReceiptExtractionRequest where
  ImageData : String
  ImageURL : String
  ExpectedCurrency : String
  ExpectedLanguage : String
  StoreHint : String
deriving DecidableEq, Repr

/-- The request-validation and image-locator logic of `ExtractReceiptData`
(src/unnamed/part_003, lines 77-119), up to the `callVisionAPI` call: an
error when neither source is given, otherwise the URL the method hands to
the vision API. -/
def extractReceiptDataImageURL (req : ReceiptExtractionRequest) : Except String String :=
  if req.ImageData = "" ∧ req.ImageURL = "" then .error "no image data provided"
  else if req.ImageURL = "" ∧ req.ImageData ≠ "" then
    (if 5 < req.ImageData.length ∧ req.ImageData.take 5 = "data:" then .ok req.ImageData
     else .ok ("data:" ++ detectImageMimeType req.ImageData.toList ++ ";base64," ++ req.ImageData))
  else .ok req.ImageURL

/-- A 20-character input whose 16-character head decodes, after the
decoder's newline skipping, to the 3-byte GIF signature `47 49 46`. -/
def gifNewlineInput : List Char :=
  "R0lG".toList ++ List.replicate 12 '\n' ++ "AAAA".toList

/-- The standard encoding of 15 bytes starting with the PNG signature:
a 20-character string without padding. -/
def pngB64Input : List Char :=
  encodeBase64 [0x89, 0x50, 0x4E, 0x47, 0, 0, 0, 0, 0, 0, 0, 0, 0, 0, 0]

end Openai

namespace Handler

/-- A spreadsheet cell as placed by `formatReceiptRow` into Go's
`[]interface{}` row: either a string, a number (`float64`), or an `int`. -/
inductive Cell where
  | str (s : String)
  | num (q : ℚ)
  | int (n : Nat)
deriving DecidableEq, Repr

/-- The join loop of `formatReceiptRow`: the first name, then
`itemsSummary += ", " + itemNames[i]` for the remaining names
(the empty string for an empty list, matching the inner
`len(itemNames) > 0` guard of the code). -/
def joinCommaSpace : List String → String
  | [] => ""
  | n :: rest => rest.foldl (fun acc s => acc ++ ", " ++ s) n

/-- Function `formatReceiptRow` from
src/functions/receipt-processor/handler/multipart.go (lines 202-275):
defaults for every column, overridden when the record is present. -/
def formatReceiptRow (data : Option Openai.ReceiptData) (receiptURL memo : String) :
    List Cell :=
  match data with
  | none =>
      [Cell.str "", Cell.str "", Cell.str "", Cell.str "", Cell.int 0,
       Cell.str "", Cell.str "", Cell.str receiptURL, Cell.str memo]
  | some d =>
      let date := if d.ReceiptDate.IsZero then "" else d.ReceiptDate.FormatYMD
      let category := if d.ExpenseCategory ≠ "" then d.ExpenseCategory else "미분류"
      let storeName := if d.StoreName ≠ "" then d.StoreName else ""
      let totalAmount := if d.TotalAmount > 0 then Cell.num d.TotalAmount else Cell.str ""
      let itemCount := d.Items.length
      let itemNames := (d.Items.filter (fun i => i.Name ≠ "")).map Openai.ReceiptItem.Name
      let itemsSummary := if itemCount > 0 then joinCommaSpace itemNames else ""
      let paymentMethod := if d.PaymentMethod ≠ "" then d.PaymentMethod else "알 수 없음"
      [Cell.str date, Cell.str category, Cell.str storeName, totalAmount,
       Cell.int itemCount, Cell.str itemsSummary, Cell.str paymentMethod,
       Cell.str receiptURL, Cell.str memo]

/-- The comma-and-space join as the spec phrases it, written by direct
recursion; compared against the code's accumulator loop below. -/
def commaSpaceJoined : List String → String
  | [] => ""
  | [x] => x
  | x :: y :: rest => x ++ ", " ++ commaSpaceJoined (y :: rest)

end Handler

namespace Extractor

/-- Go struct `ReceiptItem` of the secondary extraction path
(src/functions/receipt-go/types.go). -/
structure ReceiptItem where
  Name : String
  Quantity : Int
  Price : ℚ
  Total : ℚ
deriving DecidableEq, Repr

/-- Go struct `ReceiptData` of the secondary extraction path
(src/functions/receipt-go/types.go). -/
structure ReceiptData where
  MerchantName : String
  MerchantAddress : String
  PhoneNumber : String
  TransactionDate : String
  TransactionTime : String
  Items : List ReceiptItem
  Subtotal : ℚ
  Tax : ℚ
  Total : ℚ
  PaymentMethod : String
  CardLastFour : String
  ReceiptNumber : String
  CashierName : String
deriving DecidableEq, Repr

/-- A secondary-path `ReceiptData` with all fields at their Go zero
values. -/
def emptyReceiptData : ReceiptData :=
  { MerchantName := "", MerchantAddress := "", PhoneNumber := "",
    TransactionDate := "", TransactionTime := "", Items := [],
    Subtotal := 0, Tax := 0, Total := 0, PaymentMethod := "",
    CardLastFour := "", ReceiptNumber := "", CashierName := "" }

/-- Function `ValidateReceiptData` from the secondary extraction path
(src/unnamed/part_009, lines 52-79); the message Go assembles with
numeric formatting is kept as its fixed leading text. -/
def ValidateReceiptData (data : ReceiptData) : List String :=
  (if data.MerchantName = "" then ["merchant name is missing"] else []) ++
  (if data.Total ≤ 0 then ["total amount is invalid or missing"] else []) ++
  (if data.Items.length = 0 then ["no items found in receipt"] else []) ++
  (let calculatedTotal := data.Subtotal + data.Tax
   let diff := calculatedTotal - data.Total
   let diff := if diff < 0 then -diff else diff
   if diff > 5/100 then ["total calculation mismatch"] else [])

end Extractor

/-! ## Theorems -/

/-- C8: the primary completeness check `Validate` reports no error exactly
when the store name is non-empty, the total amount is positive, the
currency is non-empty, and the receipt timestamp is non-zero; if any of
these conditions fails an error is reported. -/
theorem validate_none_iff_complete (r : Openai.ReceiptData) :
    Openai.Validate r = none ↔
      (r.StoreName ≠ "" ∧ 0 < r.TotalAmount ∧ r.Currency ≠ "" ∧
        r.ReceiptDate.IsZero = false) := by
  unfold Openai.Validate
  split_ifs with h1 h2 h3 h4 <;> simp_all

/-- C7: `GetTotalWithoutTax` returns `SubtotalAmount` when it is positive,
otherwise `TotalAmount - TaxAmount` when `TaxAmount` is positive,
otherwise `TotalAmount`. -/
theorem getTotalWithoutTax_cases (r : Openai.ReceiptData) :
    (0 < r.SubtotalAmount → Openai.GetTotalWithoutTax r = r.SubtotalAmount) ∧
    (r.SubtotalAmount ≤ 0 → 0 < r.TaxAmount →
      Openai.GetTotalWithoutTax r = r.TotalAmount - r.TaxAmount) ∧
    (r.SubtotalAmount ≤ 0 → r.TaxAmount ≤ 0 →
      Openai.GetTotalWithoutTax r = r.TotalAmount) := by
  unfold Openai.GetTotalWithoutTax
  refine ⟨fun h => ?_, fun h1 h2 => ?_, fun h1 h2 => ?_⟩ <;>
    split_ifs <;> first | rfl | linarith

/-- C7 witness: the three worked examples of the spec,
`{Subtotal:10, Tax:2, Total:12} ↦ 10`, `{Subtotal:0, Tax:2, Total:12} ↦ 10`,
`{Subtotal:0, Tax:0, Total:12} ↦ 12`, obtained from
`getTotalWithoutTax_cases` with each hypothesis discharged concretely. -/
theorem getTotalWithoutTax_cases_witness :
    Openai.GetTotalWithoutTax
        { Openai.emptyReceiptData with
            SubtotalAmount := 10, TaxAmount := 2, TotalAmount := 12 } = 10 ∧
    Openai.GetTotalWithoutTax
        { Openai.emptyReceiptData with
            SubtotalAmount := 0, TaxAmount := 2, TotalAmount := 12 } = 10 ∧
    Openai.GetTotalWithoutTax
        { Openai.emptyReceiptData with
            SubtotalAmount := 0, TaxAmount := 0, TotalAmount := 12 } = 12 := by
  refine ⟨(getTotalWithoutTax_cases _).1 (by norm_num),
    ((getTotalWithoutTax_cases _).2.1 (by norm_num) (by norm_num)).trans (by norm_num),
    (getTotalWithoutTax_cases _).2.2 (by norm_num) (by norm_num)⟩

/-- Helper: `ValidateImageForOpenAI` succeeds exactly when both the size
check and the format check succeed. -/
theorem validateImageForOpenAI_ok (d : List Nat) :
    Openai.ValidateImageForOpenAI d = .ok () ↔
      (Openai.ValidateImageSize d = .ok () ∧ Openai.ValidateImageFormat d = .ok ()) := by
  unfold Openai.ValidateImageForOpenAI
  cases hv : Openai.ValidateImageSize d <;> simp [hv]

/-- Helper: characterization of the size check. -/
theorem validateImageSize_ok (d : List Nat) :
    Openai.ValidateImageSize d = .ok () ↔
      (d ≠ [] ∧ d.length ≤ Openai.MaxImageSizeBytes) := by
  unfold Openai.ValidateImageSize
  split_ifs with h1 h2 <;> simp_all [List.length_eq_zero]

/-- Helper: characterization of the format check. -/
theorem validateImageFormat_ok (d : List Nat) :
    Openai.ValidateImageFormat d = .ok () ↔
      (4 ≤ d.length ∧
        (Openai.isPNG d || Openai.isJPEG d || Openai.isGIF d || Openai.isWEBP d) = true) := by
  unfold Openai.ValidateImageFormat
  split_ifs with h1 h2
  · constructor
    · intro h; exact absurd h (by simp)
    · rintro ⟨h4, -⟩; omega
  · constructor
    · intro h; exact absurd h (by simp)
    · rintro ⟨-, hor⟩
      simp only [Bool.and_eq_true, Bool.not_eq_true'] at h2
      simp only [Bool.or_eq_true] at hor
      obtain ⟨⟨⟨hp, hj⟩, hg⟩, hw⟩ := h2
      rcases hor with ((h | h) | h) | h <;> simp_all
  · constructor
    · intro _
      refine ⟨by omega, ?_⟩
      simp only [Bool.and_eq_true, Bool.not_eq_true'] at h2
      by_contra hor
      simp only [Bool.or_eq_true, not_or] at hor
      obtain ⟨⟨⟨hp, hj⟩, hg⟩, hw⟩ := hor
      exact h2 ⟨⟨⟨by simp_all, by simp_all⟩, by simp_all⟩, by simp_all⟩
    · intro _; rfl

/-- C2 counterexample: the claim, as stated, is false at the 3-byte buffer
`FF D8 FF`. It is non-empty, within the 50 MiB limit, and its leading
bytes match the JPEG signature, yet `ValidateImageForOpenAI` rejects it
(the format check requires at least 4 bytes). -/
theorem validateImageForOpenAI_claim_counterexample :
    ¬ (∀ d : List Nat,
        Openai.ValidateImageForOpenAI d = .ok () ↔
          (d ≠ [] ∧ d.length ≤ Openai.MaxImageSizeBytes ∧
            (Openai.isPNG d || Openai.isJPEG d || Openai.isGIF d || Openai.isWEBP d) = true)) := by
  intro h
  have hc := (h [0xFF, 0xD8, 0xFF]).mpr (by decide)
  rw [show Openai.ValidateImageForOpenAI [0xFF, 0xD8, 0xFF] =
        .error { Field := "image_format",
                 Message := "image data too short to determine format" } from rfl] at hc
  exact Except.noConfusion hc

/-- C2 amended: `ValidateImageForOpenAI` succeeds exactly when the buffer
is non-empty, at most 50 MiB, has at least 4 bytes, and its leading bytes
match one of the PNG / JPEG / GIF / WEBP signatures; in particular any
buffer over 50 MiB fails, and any other signature (BMP included) fails. -/
theorem validateImageForOpenAI_ok_iff (d : List Nat) :
    Openai.ValidateImageForOpenAI d = .ok () ↔
      (d ≠ [] ∧ d.length ≤ Openai.MaxImageSizeBytes ∧ 4 ≤ d.length ∧
        (Openai.isPNG d || Openai.isJPEG d || Openai.isGIF d || Openai.isWEBP d) = true) := by
  rw [validateImageForOpenAI_ok, validateImageSize_ok, validateImageFormat_ok]
  tauto

/-- C4 counterexample: the claim, as stated, is false for a service whose
current `Temperature` is `1/2` updated with an all-zero config: the
zero-valued `Temperature` of the update does not leave the current value
untouched — the code's `>= 0` guard overwrites it with `0`. -/
theorem updateConfig_claim_counterexample :
    (Openai.UpdateConfig
        { config := { Openai.zeroConfig with Temperature := 1/2 }, apiKey := "k" }
        Openai.zeroConfig).config.Temperature = 0 ∧
      ({ Openai.zeroConfig with Temperature := (1/2 : ℚ) } : Openai.ServiceConfig).Temperature ≠ 0 := by
  constructor <;> norm_num [Openai.UpdateConfig, Openai.zeroConfig]

/-- C4 amended: `UpdateConfig` overwrites a string field only when it is
non-empty in the update and `MaxTokens` only when positive, leaving the
current value untouched otherwise, and never touches the stored config's
`APIKey` (the update's `APIKey` replaces the service's key field instead);
the exception is `Temperature`, which is overwritten whenever the update's
`Temperature` is `≥ 0` — zero included — and kept only when the update's
value is negative. -/
theorem updateConfig_frame (s : Openai.Service) (c : Openai.ServiceConfig) :
    ((Openai.UpdateConfig s c).config.APIKey = s.config.APIKey) ∧
    (c.APIKey = "" → (Openai.UpdateConfig s c).apiKey = s.apiKey) ∧
    (c.APIKey ≠ "" → (Openai.UpdateConfig s c).apiKey = c.APIKey) ∧
    (c.VisionModel = "" → (Openai.UpdateConfig s c).config.VisionModel = s.config.VisionModel) ∧
    (c.VisionModel ≠ "" → (Openai.UpdateConfig s c).config.VisionModel = c.VisionModel) ∧
    (c.CompletionModel = "" → (Openai.UpdateConfig s c).config.CompletionModel = s.config.CompletionModel) ∧
    (c.CompletionModel ≠ "" → (Openai.UpdateConfig s c).config.CompletionModel = c.CompletionModel) ∧
    (c.MaxTokens ≤ 0 → (Openai.UpdateConfig s c).config.MaxTokens = s.config.MaxTokens) ∧
    (0 < c.MaxTokens → (Openai.UpdateConfig s c).config.MaxTokens = c.MaxTokens) ∧
    (0 ≤ c.Temperature → (Openai.UpdateConfig s c).config.Temperature = c.Temperature) ∧
    (c.Temperature < 0 → (Openai.UpdateConfig s c).config.Temperature = s.config.Temperature) ∧
    (c.DefaultCurrency = "" → (Openai.UpdateConfig s c).config.DefaultCurrency = s.config.DefaultCurrency) ∧
    (c.DefaultCurrency ≠ "" → (Openai.UpdateConfig s c).config.DefaultCurrency = c.DefaultCurrency) ∧
    (c.DefaultLanguage = "" → (Openai.UpdateConfig s c).config.DefaultLanguage = s.config.DefaultLanguage) ∧
    (c.DefaultLanguage ≠ "" → (Openai.UpdateConfig s c).config.DefaultLanguage = c.DefaultLanguage) ∧
    (c.DefaultTimezone = "" → (Openai.UpdateConfig s c).config.DefaultTimezone = s.config.DefaultTimezone) ∧
    (c.DefaultTimezone ≠ "" → (Openai.UpdateConfig s c).config.DefaultTimezone = c.DefaultTimezone) := by
  unfold Openai.UpdateConfig
  refine ⟨rfl, ?_, ?_, ?_, ?_, ?_, ?_, ?_, ?_, ?_, ?_, ?_, ?_, ?_, ?_, ?_, ?_⟩ <;>
    intro h <;> simp_all

/-- C4 witness: the frame theorem applied to a concrete service and an
all-zero update, with each discharged hypothesis evaluated concretely. -/
theorem updateConfig_frame_witness :
    (Openai.UpdateConfig
        { config := { Openai.zeroConfig with VisionModel := "gpt-4o" }, apiKey := "k" }
        Openai.zeroConfig).config.VisionModel = "gpt-4o" ∧
    (Openai.UpdateConfig
        { config := { Openai.zeroConfig with VisionModel := "gpt-4o" }, apiKey := "k" }
        Openai.zeroConfig).config.Temperature = 0 := by
  refine ⟨(updateConfig_frame _ _).2.2.2.1 rfl,
    (updateConfig_frame _ _).2.2.2.2.2.2.2.2.2.1 (by norm_num [Openai.zeroConfig])⟩

/-- Helper: the accumulator loop of the code equals direct recursion. -/
theorem foldl_commaSpace (rest : List String) :
    ∀ a, rest.foldl (fun acc s => acc ++ ", " ++ s) a = Handler.commaSpaceJoined (a :: rest) := by
  induction rest with
  | nil => intro a; rfl
  | cons y ys ih =>
    intro a
    show ys.foldl _ (a ++ ", " ++ y) = Handler.commaSpaceJoined (a :: y :: ys)
    rw [ih (a ++ ", " ++ y)]
    cases ys with
    | nil => rfl
    | cons z zs =>
      show (a ++ ", " ++ y) ++ ", " ++ Handler.commaSpaceJoined (z :: zs)
            = a ++ ", " ++ (y ++ ", " ++ Handler.commaSpaceJoined (z :: zs))
      simp [String.append_assoc]

/-- Helper: the code's join equals the spec's comma-and-space join. -/
theorem joinCommaSpace_eq (l : List String) :
    Handler.joinCommaSpace l = Handler.commaSpaceJoined l := by
  cases l with
  | nil => rfl
  | cons x xs => exact foldl_commaSpace xs x

/-- C1: the spreadsheet row has exactly 9 cells in the fixed order
`[date, category, storeName, totalAmount, itemCount, itemsSummary,
paymentMethod, externalLink, memo]`, each cell pinned to its
record-derived content (with the record's defaults when absent); the
`totalAmount` cell is the number `TotalAmount` exactly when
`TotalAmount > 0` and the empty string otherwise, including for the
absent (`none`) record, on which the function still returns a full row
of defaults. -/
theorem formatReceiptRow_shape (od : Option Openai.ReceiptData) (url memo : String) :
    (Handler.formatReceiptRow od url memo).length = 9 ∧
    Handler.formatReceiptRow od url memo =
      [Handler.Cell.str (match od with
         | some d => if d.ReceiptDate.IsZero then "" else d.ReceiptDate.FormatYMD
         | none => ""),
       Handler.Cell.str (match od with
         | some d => if d.ExpenseCategory ≠ "" then d.ExpenseCategory else "미분류"
         | none => ""),
       Handler.Cell.str (match od with
         | some d => if d.StoreName ≠ "" then d.StoreName else ""
         | none => ""),
       (if (0 : ℚ) < (match od with | some d => d.TotalAmount | none => (0 : ℚ)) then
          Handler.Cell.num (match od with | some d => d.TotalAmount | none => (0 : ℚ))
        else Handler.Cell.str ""),
       Handler.Cell.int (match od with | some d => d.Items.length | none => 0),
       Handler.Cell.str (match od with
         | some d => Handler.commaSpaceJoined
             ((d.Items.filter (fun i => i.Name ≠ "")).map Openai.ReceiptItem.Name)
         | none => ""),
       Handler.Cell.str (match od with
         | some d => if d.PaymentMethod ≠ "" then d.PaymentMethod else "알 수 없음"
         | none => ""),
       Handler.Cell.str url, Handler.Cell.str memo] := by
  cases od with
  | none =>
    refine ⟨rfl, ?_⟩
    norm_num [Handler.formatReceiptRow]
  | some d =>
    refine ⟨rfl, ?_⟩
    cases hI : d.Items with
    | nil => simp [Handler.formatReceiptRow, hI, Handler.commaSpaceJoined]
    | cons i is => simp [Handler.formatReceiptRow, hI, joinCommaSpace_eq]

/-- C5: for every record, cell 5 (`itemsSummary`) is the comma-and-space
join of the non-empty item names and cell 4 (`itemCount`) counts all
items, empty-named ones included; on items `[Coffee, "", Water]` this
gives `"Coffee, Water"` and `3`. -/
theorem formatReceiptRow_items (d : Openai.ReceiptData) (url memo : String) :
    (Handler.formatReceiptRow (some d) url memo).get? 5 =
      some (Handler.Cell.str (Handler.commaSpaceJoined
        ((d.Items.filter (fun i => i.Name ≠ "")).map Openai.ReceiptItem.Name))) ∧
    (Handler.formatReceiptRow (some d) url memo).get? 4 =
      some (Handler.Cell.int d.Items.length) ∧
    (Handler.formatReceiptRow
        (some { Openai.emptyReceiptData with
                  Items := [{ Openai.emptyItem with Name := "Coffee" },
                            Openai.emptyItem,
                            { Openai.emptyItem with Name := "Water" }] }) "" "").get? 5 =
      some (Handler.Cell.str "Coffee, Water") ∧
    (Handler.formatReceiptRow
        (some { Openai.emptyReceiptData with
                  Items := [{ Openai.emptyItem with Name := "Coffee" },
                            Openai.emptyItem,
                            { Openai.emptyItem with Name := "Water" }] }) "" "").get? 4 =
      some (Handler.Cell.int 3) := by
  refine ⟨?_, ?_, by rfl, by rfl⟩
  · cases hI : d.Items with
    | nil => simp [Handler.formatReceiptRow, hI, Handler.commaSpaceJoined]
    | cons i is => simp [Handler.formatReceiptRow, hI, joinCommaSpace_eq]
  · simp [Handler.formatReceiptRow]

/-- C9: the secondary extraction path's `ValidateReceiptData` reports a
calculation-mismatch error exactly when `|Subtotal + Tax - Total|`
exceeds 0.05. -/
theorem validateReceiptData_mismatch_iff (d : Extractor.ReceiptData) :
    "total calculation mismatch" ∈ Extractor.ValidateReceiptData d ↔
      (5/100 : ℚ) < |d.Subtotal + d.Tax - d.Total| := by
  unfold Extractor.ValidateReceiptData
  have habs : (if d.Subtotal + d.Tax - d.Total < 0 then -(d.Subtotal + d.Tax - d.Total)
      else d.Subtotal + d.Tax - d.Total) = |d.Subtotal + d.Tax - d.Total| := by
    split_ifs with h
    · exact (abs_of_neg h).symm
    · exact (abs_of_nonneg (not_lt.mp h)).symm
  simp only [habs]
  split_ifs <;> simp_all

/-- Helper: every value of `base64Char` lies in the alphabet. -/
theorem base64Char_mem (i : Nat) : base64Char i ∈ b64Alphabet := by
  unfold base64Char
  rcases lt_or_ge i b64Alphabet.length with h | h
  · rw [List.getD_eq_getElem _ _ h]
    exact List.getElem_mem h
  · rw [List.getD_eq_default _ _ h]
    decide

/-- Helper: no alphabet character is the padding character. -/
theorem b64Alphabet_ne_eq (c : Char) (h : c ∈ b64Alphabet) : c ≠ '=' := by
  intro hc; subst hc; revert h; decide

/-- Helper: every character of an encoding is an alphabet character or
the padding character. -/
theorem mem_encodeBase64 (c : Char) (l : List Nat) (h : c ∈ encodeBase64 l) :
    c ∈ b64Alphabet ∨ c = '=' := by
  induction l using encodeBase64.induct with
  | case1 b1 b2 b3 rest ih =>
    simp only [encodeBase64, List.mem_cons] at h
    rcases h with h | h | h | h | h
    · exact Or.inl (h ▸ base64Char_mem _)
    · exact Or.inl (h ▸ base64Char_mem _)
    · exact Or.inl (h ▸ base64Char_mem _)
    · exact Or.inl (h ▸ base64Char_mem _)
    · exact ih h
  | case2 b1 b2 =>
    simp only [encodeBase64, List.mem_cons, List.not_mem_nil, or_false] at h
    rcases h with h | h | h | h <;>
      first | exact Or.inl (h ▸ base64Char_mem _) | exact Or.inr h
  | case3 b1 =>
    simp only [encodeBase64, List.mem_cons, List.not_mem_nil, or_false] at h
    rcases h with h | h | h | h <;>
      first | exact Or.inl (h ▸ base64Char_mem _) | exact Or.inr h
  | case4 => simp [encodeBase64] at h

/-- Helper: an encoding never carries a `data:` URI header, so the
payload-length computation is just the length. -/
theorem dataUriPayloadLen_encode (l : List Nat) :
    Openai.dataUriPayloadLen (encodeBase64 l) = (encodeBase64 l).length := by
  unfold Openai.dataUriPayloadLen
  rw [if_neg]
  rintro ⟨-, htake⟩
  have hmem : ':' ∈ (encodeBase64 l).take 5 := by
    rw [htake]; decide
  rcases mem_encodeBase64 ':' l (List.mem_of_mem_take hmem) with h | h
  · revert h; decide
  · exact absurd h (by decide)

/-- Helper: an encoding's length is `4 * ceil(n/3)`. -/
theorem encodeBase64_length (l : List Nat) :
    (encodeBase64 l).length = 4 * ((l.length + 2) / 3) := by
  induction l using encodeBase64.induct with
  | case1 b1 b2 b3 rest ih => simp [encodeBase64, ih]; omega
  | case2 b1 b2 => simp [encodeBase64]
  | case3 b1 => simp [encodeBase64]
  | case4 => rfl

/-- Helper: the estimate on an encoding, with the payload length
simplified away. -/
theorem estimate_of_encode (l : List Nat) :
    Openai.base64DecodedSizeEstimate (encodeBase64 l) =
      (((encodeBase64 l).length * 3 / 4 : Nat) : Int) -
        (Openai.base64PaddingCount (encodeBase64 l) : Int) := by
  unfold Openai.base64DecodedSizeEstimate
  rw [dataUriPayloadLen_encode]

/-- Helper: the padding count on a non-empty encoding. -/
theorem padCount_of_encode (l : List Nat) (h : encodeBase64 l ≠ []) :
    Openai.base64PaddingCount (encodeBase64 l) =
      (if (encodeBase64 l).getD ((encodeBase64 l).length - 1) ' ' = '=' then 1 else 0) +
      (if 1 < (encodeBase64 l).length ∧
          (encodeBase64 l).getD ((encodeBase64 l).length - 2) ' ' = '=' then 1 else 0) := by
  unfold Openai.base64PaddingCount
  rw [dataUriPayloadLen_encode, if_pos (List.length_pos.mpr h)]

/-- Helper: the decoded-size estimate inverts the encoding exactly. -/
theorem base64_estimate_encode (l : List Nat) :
    Openai.base64DecodedSizeEstimate (encodeBase64 l) = l.length := by
  induction l using encodeBase64.induct with
  | case4 => decide
  | case3 b1 =>
    rw [estimate_of_encode, padCount_of_encode _ (by simp [encodeBase64])]
    have hne : base64Char (b1 % 4 * 16) ≠ '=' := b64Alphabet_ne_eq _ (base64Char_mem _)
    simp [encodeBase64, List.getD]
  | case2 b1 b2 =>
    rw [estimate_of_encode, padCount_of_encode _ (by simp [encodeBase64])]
    have hne : base64Char (b2 % 16 * 4) ≠ '=' := b64Alphabet_ne_eq _ (base64Char_mem _)
    simp [encodeBase64, List.getD, hne]
  | case1 b1 b2 b3 rest ih =>
    rcases List.eq_nil_or_concat rest with hr | ⟨r0, rl, hr⟩
    · subst hr
      rw [estimate_of_encode, padCount_of_encode _ (by simp [encodeBase64])]
      have h3 : base64Char (b3 % 64) ≠ '=' := b64Alphabet_ne_eq _ (base64Char_mem _)
      have h2 : base64Char (b2 % 16 * 4 + b3 / 64) ≠ '=' :=
        b64Alphabet_ne_eq _ (base64Char_mem _)
      simp [encodeBase64, List.getD, h3, h2]
    · have hrne : rest ≠ [] := by subst hr; simp
      have hL : (encodeBase64 rest).length = 4 * ((rest.length + 2) / 3) :=
        encodeBase64_length rest
      have hLge : 4 ≤ (encodeBase64 rest).length := by
        rw [hL]
        have : 1 ≤ rest.length := List.length_pos.mpr hrne
        omega
      have hene : encodeBase64 rest ≠ [] := by
        intro h; rw [h] at hLge; simp at hLge
      rw [estimate_of_encode, padCount_of_encode _ (by simp [encodeBase64])]
      rw [estimate_of_encode, padCount_of_encode _ hene] at ih
      have hunf : encodeBase64 (b1 :: b2 :: b3 :: rest) =
          [base64Char (b1 / 4), base64Char (b1 % 4 * 16 + b2 / 16),
           base64Char (b2 % 16 * 4 + b3 / 64), base64Char (b3 % 64)] ++
            encodeBase64 rest := by
        simp [encodeBase64]
      rw [hunf]
      rw [List.length_append]
      have h4 : (4 : Nat) = List.length
          [base64Char (b1 / 4), base64Char (b1 % 4 * 16 + b2 / 16),
           base64Char (b2 % 16 * 4 + b3 / 64), base64Char (b3 % 64)] := rfl
      rw [List.getD_append_right _ _ _ _ (by rw [← h4]; omega),
          List.getD_append_right _ _ _ _ (by rw [← h4]; omega)]
      rw [← h4]
      have hi1 : 4 + (encodeBase64 rest).length - 1 - 4 = (encodeBase64 rest).length - 1 := by
        omega
      have hi2 : 4 + (encodeBase64 rest).length - 2 - 4 = (encodeBase64 rest).length - 2 := by
        omega
      rw [hi1, hi2]
      have hc1 : (1 < 4 + (encodeBase64 rest).length ∧
          (encodeBase64 rest).getD ((encodeBase64 rest).length - 2) ' ' = '=') ↔
          (encodeBase64 rest).getD ((encodeBase64 rest).length - 2) ' ' = '=' :=
        and_iff_right (by omega)
      have hc2 : (1 < (encodeBase64 rest).length ∧
          (encodeBase64 rest).getD ((encodeBase64 rest).length - 2) ' ' = '=') ↔
          (encodeBase64 rest).getD ((encodeBase64 rest).length - 2) ' ' = '=' :=
        and_iff_right (by omega)
      rw [if_congr hc1 rfl rfl]
      rw [if_congr hc2 rfl rfl] at ih
      generalize hp :
        ((if (encodeBase64 rest).getD ((encodeBase64 rest).length - 1) ' ' = '=' then (1:Nat) else 0) +
          (if (encodeBase64 rest).getD ((encodeBase64 rest).length - 2) ' ' = '=' then (1:Nat) else 0)) = p at ih ⊢
      simp only [List.length_cons]
      omega

/-- Helper: only the empty byte sequence has the empty encoding. -/
theorem encodeBase64_eq_nil_iff (l : List Nat) : encodeBase64 l = [] ↔ l = [] := by
  constructor
  · intro h
    have hl := encodeBase64_length l
    rw [h] at hl
    rcases l with _ | ⟨a, t⟩
    · rfl
    · exfalso; simp at hl; omega
  · rintro rfl; rfl

/-- C3: on the standard base64 encoding of a byte buffer, the decoded-size
estimate of `ValidateImageSizeFromBase64` recovers the raw byte count
exactly; consequently the validation fails with an `image_size` error
exactly when the buffer exceeds 50 MiB, fails with an `image_data` error
when the buffer (hence the encoding) is empty, and succeeds otherwise. -/
theorem validateImageSizeFromBase64_encode (bytes : List Nat) :
    Openai.base64DecodedSizeEstimate (encodeBase64 bytes) = bytes.length ∧
    Openai.ValidateImageSizeFromBase64 (encodeBase64 bytes) =
      (if bytes = [] then
        .error { Field := "image_data", Message := "base64 image data is empty" }
       else if Openai.MaxImageSizeBytes < bytes.length then
        .error { Field := "image_size", Message := "image size exceeds OpenAI limit" }
       else .ok ()) := by
  refine ⟨base64_estimate_encode bytes, ?_⟩
  unfold Openai.ValidateImageSizeFromBase64
  by_cases hb : bytes = []
  · subst hb; rfl
  · have hne : encodeBase64 bytes ≠ [] := fun h => hb ((encodeBase64_eq_nil_iff bytes).mp h)
    rw [if_neg hne, if_neg hb, base64_estimate_encode]
    by_cases hs : Openai.MaxImageSizeBytes < bytes.length
    · rw [if_pos (by exact_mod_cast hs), if_pos hs]
    · rw [if_neg (by exact_mod_cast hs), if_neg hs]

/-- Helper: when the input is long enough and its head decodes,
`detectImageMimeType` is the magic-byte switch on the decoded bytes. -/
theorem detect_decoded (s : List Char) (d : List Nat) (h20 : ¬ s.length < 20)
    (hsome : goDecodeBase64 (s.take (min s.length 16)) = some d) :
    Openai.detectImageMimeType s =
      (if d.length < 4 then "image/jpeg"
       else if d.getD 0 0 = 0x89 ∧ d.getD 1 0 = 0x50 ∧ d.getD 2 0 = 0x4E ∧
           d.getD 3 0 = 0x47 then "image/png"
       else if d.getD 0 0 = 0xFF ∧ d.getD 1 0 = 0xD8 ∧ d.getD 2 0 = 0xFF then "image/jpeg"
       else if d.getD 0 0 = 0x47 ∧ d.getD 1 0 = 0x49 ∧ d.getD 2 0 = 0x46 then "image/gif"
       else if d.getD 0 0 = 0x52 ∧ d.getD 1 0 = 0x49 ∧ d.getD 2 0 = 0x46 ∧
           d.getD 3 0 = 0x46 then
         (if 12 ≤ d.length ∧ d.getD 8 0 = 0x57 ∧ d.getD 9 0 = 0x45 ∧ d.getD 10 0 = 0x42 ∧
             d.getD 11 0 = 0x50 then "image/webp"
          else "image/jpeg")
       else if d.getD 0 0 = 0x42 ∧ d.getD 1 0 = 0x4D then "image/bmp"
       else "image/jpeg") := by
  unfold Openai.detectImageMimeType
  rw [if_neg h20, hsome]

/-- C6 counterexample: the claim, as stated, is false at a 20-character
input whose 16-character head decodes (newlines skipped by Go's decoder)
to the 3-byte GIF signature: the string is not short, the head decodes
successfully, the decoded magic bytes are the GIF signature, yet the
function returns the jpeg default — via its `len(decoded) < 4` guard the
claim does not mention — instead of `image/gif`. -/
theorem detectImageMimeType_claim_counterexample :
    20 ≤ Openai.gifNewlineInput.length ∧
    goDecodeBase64 (Openai.gifNewlineInput.take (min Openai.gifNewlineInput.length 16)) =
      some [0x47, 0x49, 0x46] ∧
    ([0x47, 0x49, 0x46] : List Nat).getD 0 0 = 0x47 ∧
    ([0x47, 0x49, 0x46] : List Nat).getD 1 0 = 0x49 ∧
    ([0x47, 0x49, 0x46] : List Nat).getD 2 0 = 0x46 ∧
    Openai.detectImageMimeType Openai.gifNewlineInput = "image/jpeg" ∧
    "image/jpeg" ≠ "image/gif" := by
  refine ⟨by decide, by decide, by decide, by decide, by decide, by decide, by decide⟩

/-- C6 amended: `detectImageMimeType` is total and returns `image/jpeg`
whenever the input is shorter than 20 characters, its 16-character head
fails to decode, or decodes to fewer than 4 bytes (possible when the head
contains newline characters, which the decoder skips); otherwise it
follows the magic-byte table, with `image/bmp` for `42 4D`, `image/jpeg`
for a RIFF container without the WEBP tag, and `image/jpeg` for any
unrecognized signature. -/
theorem detectImageMimeType_spec (s : List Char) :
    (s.length < 20 → Openai.detectImageMimeType s = "image/jpeg") ∧
    (20 ≤ s.length → goDecodeBase64 (s.take (min s.length 16)) = none →
      Openai.detectImageMimeType s = "image/jpeg") ∧
    (∀ d, 20 ≤ s.length → goDecodeBase64 (s.take (min s.length 16)) = some d →
      d.length < 4 → Openai.detectImageMimeType s = "image/jpeg") ∧
    (∀ d, 20 ≤ s.length → goDecodeBase64 (s.take (min s.length 16)) = some d →
      4 ≤ d.length →
      Openai.detectImageMimeType s =
        (if d.getD 0 0 = 0x89 ∧ d.getD 1 0 = 0x50 ∧ d.getD 2 0 = 0x4E ∧
            d.getD 3 0 = 0x47 then "image/png"
         else if d.getD 0 0 = 0xFF ∧ d.getD 1 0 = 0xD8 ∧ d.getD 2 0 = 0xFF then "image/jpeg"
         else if d.getD 0 0 = 0x47 ∧ d.getD 1 0 = 0x49 ∧ d.getD 2 0 = 0x46 then "image/gif"
         else if d.getD 0 0 = 0x52 ∧ d.getD 1 0 = 0x49 ∧ d.getD 2 0 = 0x46 ∧
             d.getD 3 0 = 0x46 then
           (if 12 ≤ d.length ∧ d.getD 8 0 = 0x57 ∧ d.getD 9 0 = 0x45 ∧ d.getD 10 0 = 0x42 ∧
               d.getD 11 0 = 0x50 then "image/webp"
            else "image/jpeg")
         else if d.getD 0 0 = 0x42 ∧ d.getD 1 0 = 0x4D then "image/bmp"
         else "image/jpeg")) := by
  refine ⟨fun h => ?_, fun h20 hnone => ?_, fun d h20 hsome hlt => ?_,
    fun d h20 hsome hge => ?_⟩
  · unfold Openai.detectImageMimeType
    rw [if_pos h]
  · unfold Openai.detectImageMimeType
    rw [if_neg (by omega), hnone]
  · rw [detect_decoded s d (by omega) hsome, if_pos hlt]
  · rw [detect_decoded s d (by omega) hsome, if_neg (by omega)]

/-- C6 witness: the amended theorem applied to the 20-character encoding
of 15 bytes starting with the PNG signature, every hypothesis evaluated
concretely. -/
theorem detectImageMimeType_spec_witness :
    Openai.detectImageMimeType Openai.pngB64Input = "image/png" := by
  have h := (detectImageMimeType_spec Openai.pngB64Input).2.2.2
      [0x89, 0x50, 0x4E, 0x47, 0, 0, 0, 0, 0, 0, 0, 0]
      (by decide) (by decide) (by decide)
  rw [h]
  decide

/-- C10: when both sources are present, `ExtractReceiptData` hands
`ImageURL` to the vision API and ignores `ImageData` entirely; only when
`ImageURL` is empty is `ImageData` used, wrapped in a data URI unless it
already carries one. -/
theorem extractReceiptData_url_priority (req : Openai.ReceiptExtractionRequest) :
    (req.ImageURL ≠ "" → Openai.extractReceiptDataImageURL req = .ok req.ImageURL) ∧
    (req.ImageURL = "" → req.ImageData ≠ "" →
      Openai.extractReceiptDataImageURL req =
        .ok (if 5 < req.ImageData.length ∧ req.ImageData.take 5 = "data:"
             then req.ImageData
             else "data:" ++ Openai.detectImageMimeType req.ImageData.toList ++
               ";base64," ++ req.ImageData)) := by
  constructor
  · intro h
    unfold Openai.extractReceiptDataImageURL
    rw [if_neg (by tauto), if_neg (by tauto)]
  · intro h1 h2
    unfold Openai.extractReceiptDataImageURL
    rw [if_neg (by tauto), if_pos ⟨h1, h2⟩]
    split_ifs <;> rfl

/-- C10 witness: a request with both `ImageData` and `ImageURL` set
resolves to the URL, by the theorem with its hypothesis evaluated
concretely. -/
theorem extractReceiptData_url_priority_witness :
    Openai.extractReceiptDataImageURL
      { ImageData := "abc", ImageURL := "https://example.com/r.png",
        ExpectedCurrency := "", ExpectedLanguage := "", StoreHint := "" } =
      .ok "https://example.com/r.png" :=
  (extractReceiptData_url_priority _).1 (by decide)
